import Mathlib

/-!
Verification development for the voicebun voice-agent runtime.

The definitions below are shallow embeddings of the decision logic in
`backend_agent.py` (configuration dict, instruction/greeting synthesis,
STT/LLM/TTS model selection, the generated-code behavior loader, the
data-received event handler, and the bounded configuration wait loop) and
`voice_agent.py` (the provider-dispatch factories of `DynamicVoiceAgent`).
Python dict keys that may be absent are modelled as `Option` fields;
Python exceptions are modelled as `Except String`; the opaque third-party
constructor calls are modelled as inert record/inductive values carrying
exactly the arguments the source passes to them.
-/

namespace VoiceBun

/-! ## Configuration model (the `config` dict of `backend_agent.py`)

The backend reads five recognized keys from the configuration dict:
`prompt`, `personality`, `capabilities`, `language`, `responseStyle`.
Each is optional (modelled as `Option`); `extraKeys` records whether the
dict carries any unrecognized keys, which matters only for Python dict
truthiness (`if not self.config`). -/

structure Config where
  prompt : Option String := none
  personality : Option String := none
  capabilities : Option (List String) := none
  language : Option String := none
  responseStyle : Option String := none
  extraKeys : Bool := false
deriving DecidableEq

/-- Python dict truthiness: `not self.config` holds exactly when the dict is
empty, i.e. no recognized key is present and no unrecognized key either. -/
def configIsEmpty (c : Config) : Bool :=
  c.prompt.isNone && c.personality.isNone && c.capabilities.isNone &&
    c.language.isNone && c.responseStyle.isNone && !c.extraKeys

/-! ## Fixed text tables (copied verbatim from `backend_agent.py`) -/

def personalityMap : List (String × String) :=
  [("friendly", "Be warm, approachable, and encouraging in your responses."),
   ("professional", "Maintain a formal, business-like tone and be precise in your communication."),
   ("casual", "Use a relaxed, informal tone as if talking to a friend."),
   ("witty", "Be clever and humorous, using appropriate jokes and wordplay."),
   ("empathetic", "Show understanding and emotional support, be compassionate and caring.")]

def styleMap : List (String × String) :=
  [("conversational", "Use natural, flowing conversation style."),
   ("concise", "Keep responses brief and to the point."),
   ("detailed", "Provide thorough, comprehensive explanations."),
   ("creative", "Be imaginative and expressive in your responses.")]

def friendlyGreeting : String :=
  "Hello! I'm your friendly AI assistant. How can I help you today?"

def greetingsMap : List (String × String) :=
  [("friendly", friendlyGreeting),
   ("professional", "Good day. I am your AI assistant, ready to provide professional assistance."),
   ("casual", "Hey there! What's up? How can I help you out?"),
   ("witty", "Well hello there! Your charming AI assistant is here and ready to dazzle you with assistance!"),
   ("empathetic", "Hello, and welcome! I'm here to listen and help you with whatever you need.")]

def baseInstructions : String := "You are a helpful voice AI assistant."

/-! ## String helpers modelling Python string operations -/

/-- Python `sep.join(parts)`. -/
def joinWith (sep : String) : List String → String
  | [] => ""
  | [x] => x
  | x :: y :: xs => x ++ sep ++ joinWith sep (y :: xs)

def joinSpace (l : List String) : String := joinWith " " l

def joinComma (l : List String) : String := joinWith ", " l

/-- Python `str.title()` on a character list: the first character of each
alphabetic run is uppercased, the rest lowercased; non-alphabetic
characters reset the run. -/
def titleAux : Bool → List Char → List Char
  | _, [] => []
  | prevAlpha, ch :: rest =>
    let isA := ch.isAlpha
    (if isA then (if prevAlpha then ch.toLower else ch.toUpper) else ch)
      :: titleAux isA rest

def pyTitle (s : String) : String := String.mk (titleAux false s.data)

/-! ## Instruction synthesis (`DynamicAssistant._build_instructions`)

The Python method appends parts to `instructions_parts` in program order.
Each append site is one of the component functions below; the list the
source joins with a single space is their concatenation in source order. -/

def promptPart (c : Config) : List String :=
  if c.prompt.getD "" = "" then [] else ["Core Instructions: " ++ c.prompt.getD ""]

def personalityPart (c : Config) : List String :=
  match personalityMap.lookup (c.personality.getD "friendly") with
  | some t => ["Personality: " ++ t]
  | none => []

def capabilitiesPart (c : Config) : List String :=
  if c.capabilities.getD [] = [] then []
  else ["Your main capabilities include: " ++ joinComma (c.capabilities.getD [])]

def stylePart (c : Config) : List String :=
  match styleMap.lookup (c.responseStyle.getD "conversational") with
  | some t => ["Response Style: " ++ t]
  | none => []

def languagePart (c : Config) : List String :=
  if c.language.getD "english" = "english" then []
  else ["Respond primarily in " ++ pyTitle (c.language.getD "english") ++ "."]

def instructionParts (c : Config) : List String :=
  promptPart c ++ personalityPart c ++ capabilitiesPart c ++ stylePart c ++ languagePart c

/-- `DynamicAssistant._build_instructions`: early-returns the base sentence
for an empty config dict, otherwise joins the accumulated parts with a
single space, falling back to the base sentence when no part was added. -/
def buildInstructions (c : Config) : String :=
  if configIsEmpty c then baseInstructions
  else if instructionParts c = [] then baseInstructions
  else joinSpace (instructionParts c)

/-! ## Greeting synthesis (`get_personalized_greeting`) -/

def getPersonalizedGreeting (c : Config) : String :=
  let personality := c.personality.getD "friendly"
  let capabilities := c.capabilities.getD []
  let baseGreeting := (greetingsMap.lookup personality).getD friendlyGreeting
  if capabilities ≠ [] then
    if capabilities.length ≤ 3 then
      baseGreeting ++ " I can help you with " ++ joinComma capabilities ++ "."
    else
      baseGreeting ++ " I have various capabilities to assist you with different tasks."
  else baseGreeting

/-! ## STT / LLM / TTS model selection (`get_stt_model`, `get_llm_model`,
`get_tts_model` of `backend_agent.py`)

The constructor calls `deepgram.STT(...)`, `openai.LLM(...)`,
`cartesia.TTS()` are opaque third-party factories; we model them as
records carrying exactly the arguments the source passes. -/

structure DeepgramSTT where
  model : String
  language : String
deriving DecidableEq

structure OpenAILLM where
  model : String
deriving DecidableEq

inductive CartesiaTTS where
  | mk
deriving DecidableEq

def languageMap : List (String × String) :=
  [("english", "en"), ("spanish", "es"), ("french", "fr"),
   ("german", "de"), ("chinese", "zh"), ("japanese", "ja")]

def get_stt_model (c : Config) : DeepgramSTT :=
  let language := c.language.getD "english"
  let deepgramLanguage := (languageMap.lookup language).getD "multi"
  { model := "nova-3",
    language := if deepgramLanguage ≠ "multi" then deepgramLanguage else "multi" }

def get_llm_model (_ : Config) : OpenAILLM := { model := "gpt-4o-mini" }

def get_tts_model (_ : Config) : CartesiaTTS := CartesiaTTS.mk

/-! ## Spec-side synthesis definitions

These definitions restate the spec's wording for instruction synthesis,
greeting cardinality and STT language selection, to be compared with the
source-derived definitions above. -/

/-- Spec wording: the configured prompt, if present (non-empty), prefixed
with the literal marker. -/
def specPromptClause (c : Config) : Option String :=
  match c.prompt with
  | none => none
  | some p => if p = "" then none else some ("Core Instructions: " ++ p)

/-- Spec wording: a personality clause looked up from the five-entry table,
keyed by the configured value with absent values reading as friendly. -/
def specPersonalityClause (c : Config) : Option String :=
  (personalityMap.lookup (c.personality.getD "friendly")).map
    (fun t => "Personality: " ++ t)

/-- Spec wording: a capabilities clause joining the configured names with a
comma, only if the list is non-empty. -/
def specCapabilitiesClause (c : Config) : Option String :=
  match c.capabilities with
  | some (x :: xs) => some ("Your main capabilities include: " ++ joinComma (x :: xs))
  | _ => none

/-- Spec wording: a response-style clause from the four-entry table, absent
values reading as conversational. -/
def specStyleClause (c : Config) : Option String :=
  (styleMap.lookup (c.responseStyle.getD "conversational")).map
    (fun t => "Response Style: " ++ t)

/-- Spec wording: a language directive only when the configured language is
not english. -/
def specLanguageClause (c : Config) : Option String :=
  match c.language with
  | none => none
  | some l => if l = "english" then none
              else some ("Respond primarily in " ++ pyTitle l ++ ".")

/-- The spec's parts, in fixed order, keeping only those that apply. -/
def specParts (c : Config) : List String :=
  (specPromptClause c).toList ++ (specPersonalityClause c).toList ++
    (specCapabilitiesClause c).toList ++ (specStyleClause c).toList ++
    (specLanguageClause c).toList

/-- Spec wording for instruction synthesis: concatenate the applicable
parts; fall back to the literal default sentence when no part applies and
for the empty configuration. -/
def specSynthesizeInstructions (c : Config) : String :=
  if configIsEmpty c ∨ specParts c = [] then baseInstructions
  else joinSpace (specParts c)

/-- The greeting template chosen for the configured personality, with the
friendly template as the default. -/
def greetingBase (c : Config) : String :=
  (greetingsMap.lookup (c.personality.getD "friendly")).getD friendlyGreeting

/-- Spec wording for the greeting's capabilities clause: with one to three
configured capabilities they are listed by name; with more than three the
generic clause is used; with zero nothing is appended. -/
def specGreeting (c : Config) : String :=
  match c.capabilities.getD [] with
  | [] => greetingBase c
  | x :: xs =>
    if 1 ≤ (x :: xs).length ∧ (x :: xs).length ≤ 3 then
      greetingBase c ++ " I can help you with " ++ joinComma (x :: xs) ++ "."
    else
      greetingBase c ++ " I have various capabilities to assist you with different tasks."

/-- Spec-side STT language selection, as the amended claim states it: the
six recognized names map to their two-letter codes, an absent language
reads as english (hence the en code), and any other value maps to the
multilingual setting. -/
def specSttLanguage : Option String → String
  | none => "en"
  | some l =>
    if l = "english" then "en"
    else if l = "spanish" then "es"
    else if l = "french" then "fr"
    else if l = "german" then "de"
    else if l = "chinese" then "zh"
    else if l = "japanese" then "ja"
    else "multi"

/-! ## Behavior loader (`DynamicAssistant._execute_generated_code`)

Evaluating an arbitrary Python blob cannot be embedded; the blob is
modelled by its observable evaluation outcome: either the `exec` raises
(`Except.error`) or it populates a scope. The scope records the proper
`Agent` subclasses defined by the blob in definition order, and whether a
`get_instructions` function was defined. For a discovered class, the
source checks whether the name `config` occurs in
`__init__.__code__.co_varnames` to decide between `cls(self.config)` and
`cls()`; each of those two constructor calls may itself raise, so both are
modelled as `Except` outcomes. An instantiated object's `instructions`
attribute may be absent (`getattr` with a default in `__init__`). -/

structure BehaviorInstance where
  instructions : Option String
deriving DecidableEq

structure AgentClassModel where
  /-- Whether the name `config` occurs in the constructor's
  `__code__.co_varnames` (parameters and locals alike). -/
  hasConfigParam : Bool
  /-- Outcome of `cls(self.config)`. -/
  constructWithConfig : Except String BehaviorInstance
  /-- Outcome of `cls()`. -/
  constructNoArgs : Except String BehaviorInstance

structure ExecScope where
  /-- The proper subclasses of `Agent` bound in `exec_locals`, in the
  iteration order of the dict; the `for`-loop takes the first one. -/
  agentSubclasses : List AgentClassModel
  /-- `exec_locals['get_instructions']`, when defined: the outcome of
  calling it on the config. -/
  getInstructions : Option (Except String String)

/-- The body of the `try` block: class strategy first (instantiate the
first discovered subclass, passing the config exactly when
`hasConfigParam`), then the `get_instructions` function strategy, else no
custom assistant. An `Except.error` models an uncaught Python exception
inside the `try`. -/
def loaderBody (scope : ExecScope) : Except String (Option BehaviorInstance) :=
  match scope.agentSubclasses with
  | cls :: _ =>
    match (if cls.hasConfigParam then cls.constructWithConfig else cls.constructNoArgs) with
    | .ok inst => .ok (some inst)
    | .error e => .error e
  | [] =>
    match scope.getInstructions with
    | some (.ok text) => .ok (some { instructions := some text })
    | some (.error e) => .error e
    | none => .ok none

/-- `_execute_generated_code`: every exception raised by evaluation, class
instantiation or the `get_instructions` call is caught by the enclosing
`except` and downgraded to `None`. -/
def executeGeneratedCode (ev : Except String ExecScope) : Option BehaviorInstance :=
  match ev with
  | .error _ => none
  | .ok scope =>
    match loaderBody scope with
    | .ok r => r
    | .error _ => none

/-- The instruction text `DynamicAssistant.__init__` ends up passing to
`Agent.__init__`: a falsy (absent or empty) `generated_code` skips
execution entirely; otherwise the custom assistant's `instructions`
attribute is used when a custom assistant was produced and carries one,
with `_build_instructions()` as the fallback in every other case.
`evalOf` is the opaque Python evaluation of a blob string. -/
def dynamicAssistantInstructions (c : Config) (generatedCode : Option String)
    (evalOf : String → Except String ExecScope) : String :=
  match generatedCode with
  | none => buildInstructions c
  | some code =>
    if code = "" then buildInstructions c
    else
      match executeGeneratedCode (evalOf code) with
      | some inst => inst.instructions.getD (buildInstructions c)
      | none => buildInstructions c

/-! ## Provider resolution (`DynamicVoiceAgent._create_stt/_create_tts/
_create_llm/_create_vad` of `voice_agent.py`)

Each factory reads `section['provider']`, `section['model']` (except VAD)
and `section['config']` in that order — a missing key raises `KeyError` —
then dispatches on the provider name, raising `ValueError` with the
messages of the source for unknown or not-implemented providers. -/

abbrev Opts := List (String × String)

structure ProviderSection where
  provider : Option String := none
  model : Option String := none
  opts : Option Opts := none
deriving DecidableEq

inductive Capability where
  | stt | tts | llm | vad
deriving DecidableEq

inductive Binding where
  | deepgramSTT (model : String) (opts : Opts)
  | openaiSTT (model : String) (opts : Opts)
  | googleSTT (model : String) (opts : Opts)
  | cartesiaTTS (model : String) (opts : Opts)
  | openaiTTS (model : String) (opts : Opts)
  | googleTTS (model : String) (opts : Opts)
  | openaiLLM (model : String) (opts : Opts)
  | googleLLM (model : String) (opts : Opts)
  | sileroVAD (opts : Opts)
deriving DecidableEq

def createSTT (sec : ProviderSection) : Except String Binding :=
  match sec.provider with
  | none => .error "KeyError: provider"
  | some provider =>
    match sec.model with
    | none => .error "KeyError: model"
    | some model =>
      match sec.opts with
      | none => .error "KeyError: config"
      | some cfg =>
        if provider = "deepgram" then .ok (.deepgramSTT model cfg)
        else if provider = "openai" then .ok (.openaiSTT model cfg)
        else if provider = "google" then .ok (.googleSTT model cfg)
        else .error ("Unsupported STT provider: " ++ provider)

def createTTS (sec : ProviderSection) : Except String Binding :=
  match sec.provider with
  | none => .error "KeyError: provider"
  | some provider =>
    match sec.model with
    | none => .error "KeyError: model"
    | some model =>
      match sec.opts with
      | none => .error "KeyError: config"
      | some cfg =>
        if provider = "cartesia" then .ok (.cartesiaTTS model cfg)
        else if provider = "openai" then .ok (.openaiTTS model cfg)
        else if provider = "google" then .ok (.googleTTS model cfg)
        else if provider = "elevenlabs" then .error "ElevenLabs TTS not implemented yet"
        else .error ("Unsupported TTS provider: " ++ provider)

def createLLM (sec : ProviderSection) : Except String Binding :=
  match sec.provider with
  | none => .error "KeyError: provider"
  | some provider =>
    match sec.model with
    | none => .error "KeyError: model"
    | some model =>
      match sec.opts with
      | none => .error "KeyError: config"
      | some cfg =>
        if provider = "openai" then .ok (.openaiLLM model cfg)
        else if provider = "google" then .ok (.googleLLM model cfg)
        else if provider = "anthropic" then .error "Anthropic LLM not implemented yet"
        else .error ("Unsupported LLM provider: " ++ provider)

def createVAD (sec : ProviderSection) : Except String Binding :=
  match sec.provider with
  | none => .error "KeyError: provider"
  | some provider =>
    match sec.opts with
    | none => .error "KeyError: config"
    | some cfg =>
      if provider = "silero" then .ok (.sileroVAD cfg)
      else .error ("Unsupported VAD provider: " ++ provider)

def resolveProvider (cap : Capability) (sec : ProviderSection) : Except String Binding :=
  match cap with
  | .stt => createSTT sec
  | .tts => createTTS sec
  | .llm => createLLM sec
  | .vad => createVAD sec

/-- The provider names for which a working factory branch exists in the
source; the not-implemented branches (elevenlabs TTS, anthropic LLM) have
no factory and raise. -/
def registeredProviders : Capability → List String
  | .stt => ["deepgram", "openai", "google"]
  | .tts => ["cartesia", "openai", "google"]
  | .llm => ["openai", "google"]
  | .vad => ["silero"]

def lowerChars (s : String) : List Char := s.data.map Char.toLower

/-- The error message mentions the offending provider name (up to ASCII
case, to honor the source's capitalized messages for the not-implemented
providers). -/
def NamesProvider (msg p : String) : Prop := lowerChars p <:+: lowerChars msg

/-- The resolution outcome is a failure whose message names `p`. -/
def FailsNamingProvider (r : Except String Binding) (p : String) : Prop :=
  match r with
  | .error msg => NamesProvider msg p
  | .ok _ => False

instance (msg p : String) : Decidable (NamesProvider msg p) := by
  unfold NamesProvider; infer_instance

instance (r : Except String Binding) (p : String) : Decidable (FailsNamingProvider r p) := by
  unfold FailsNamingProvider
  match r with
  | .error msg => infer_instance
  | .ok _ => infer_instance

/-! ## The data-received handler and the configuration wait
(`on_data_received` and the polling loop of `entrypoint`)

Inbound payloads are classified by the outcome of `data.data.decode()`
and `json.loads`: undecodable bytes, non-JSON text, or a decoded JSON
value. The handler catches exactly `JSONDecodeError` and
`UnicodeDecodeError`; on a decoded value it calls `message.get(...)`,
which raises an uncaught `AttributeError` when the value is not an
object. A type-matching object schedules `handle_config_update`, whose
observable effect on the gate is `config.update(new_config)` on the
shared config dict (a non-mapping `config` field makes that update raise
inside the task, leaving the dict unchanged). -/

inductive JValue where
  | null
  | jbool (b : Bool)
  | jnum (n : Int)
  | jstr (s : String)
  | jarr (items : List JValue)
  | jobj (fields : List (String × JValue))

abbrev GateState := List (String × JValue)

def jdictGet (fields : List (String × JValue)) (k : String) : Option JValue :=
  (fields.find? (fun kv => kv.1 == k)).map (fun kv => kv.2)

def isSetupType : Option JValue → Bool
  | some (.jstr s) => s == "agent_setup"
  | _ => false

/-- Python `dict.update`: existing keys are overwritten in place, new keys
are appended in order. -/
def dictUpdate (st upd : GateState) : GateState :=
  st.map (fun kv =>
      match jdictGet upd kv.1 with
      | some v => (kv.1, v)
      | none => kv)
    ++ upd.filter (fun kv => (jdictGet st kv.1).isNone)

inductive Decoded where
  | failUnicode
  | failJson
  | value (v : JValue)

/-- `on_data_received`: an `Except.error` models an exception escaping the
handler (only decode and JSON errors are caught). The returned state is
the shared config dict after the scheduled `handle_config_update` has
run. -/
def onDataReceived (d : Decoded) (st : GateState) : Except String GateState :=
  match d with
  | .failUnicode => .ok st
  | .failJson => .ok st
  | .value (.jobj fields) =>
    if isSetupType (jdictGet fields "type") then
      match jdictGet fields "config" with
      | some (.jobj cfg) => .ok (dictUpdate st cfg)
      | some _ => .ok st
      | none => .ok (dictUpdate st [])
    else .ok st
  | .value _ => .error "AttributeError"

/-- A well-formed setup event: a decoded JSON object whose type field is
the recognized marker. -/
def isSetupEvent : Decoded → Bool
  | .value (.jobj fields) => isSetupType (jdictGet fields "type")
  | _ => false

inductive GateResult where
  | arrived (second : Nat)
  | timedOut
deriving DecidableEq

/-- The polling loop of `entrypoint`: `for i in range(15): await sleep(1);
if config: break`. `t` is the number of whole seconds elapsed, `n` the
remaining iterations; `configNonempty s` tells whether the shared config
dict is non-empty at second `s`. -/
def waitLoopAux (t n : Nat) (configNonempty : Nat → Bool) : GateResult :=
  match n with
  | 0 => .timedOut
  | n + 1 =>
    if configNonempty (t + 1) then .arrived (t + 1)
    else waitLoopAux (t + 1) n configNonempty

/-- The bounded configuration wait: fifteen one-second polls. -/
def waitForConfig (configNonempty : Nat → Bool) : GateResult :=
  waitLoopAux 0 15 configNonempty

/-- The friendly personality clause as it appears in the instruction text. -/
def friendlyPersonalityClause : String :=
  "Personality: Be warm, approachable, and encouraging in your responses."

/-- The evaluation of a blob whose compilation fails (e.g. a syntax
error): `exec` raises before binding anything. -/
def constErrEval : String → Except String ExecScope :=
  fun _ => .error "SyntaxError: invalid syntax"

/-- The evaluation of a blob that runs fine but defines neither an `Agent`
subclass nor a `get_instructions` function (e.g. the empty module). -/
def emptyScopeEval : String → Except String ExecScope :=
  fun _ => .ok { agentSubclasses := [], getInstructions := none }

/-- A blob-evaluation scope defining both an `Agent` subclass (whose
constructor takes the config and yields instructions Custom X) and a
`get_instructions` function. -/
def bothStrategiesScope : ExecScope :=
  { agentSubclasses := [{ hasConfigParam := true,
                          constructWithConfig := .ok { instructions := some "Custom X" },
                          constructNoArgs := .error "TypeError" }],
    getInstructions := some (.ok "From function") }

/-! ## Helper lemmas -/

theorem promptPart_eq (c : Config) : promptPart c = (specPromptClause c).toList := by
  unfold promptPart specPromptClause
  cases c.prompt with
  | none => simp
  | some p => by_cases hp : p = "" <;> simp [hp]

theorem personalityPart_eq (c : Config) :
    personalityPart c = (specPersonalityClause c).toList := by
  unfold personalityPart specPersonalityClause
  cases personalityMap.lookup (c.personality.getD "friendly") <;> simp

theorem capabilitiesPart_eq (c : Config) :
    capabilitiesPart c = (specCapabilitiesClause c).toList := by
  unfold capabilitiesPart specCapabilitiesClause
  cases h : c.capabilities with
  | none => simp [h]
  | some l => cases l <;> simp [h]

theorem stylePart_eq (c : Config) : stylePart c = (specStyleClause c).toList := by
  unfold stylePart specStyleClause
  cases styleMap.lookup (c.responseStyle.getD "conversational") <;> simp

theorem languagePart_eq (c : Config) : languagePart c = (specLanguageClause c).toList := by
  unfold languagePart specLanguageClause
  cases h : c.language with
  | none => simp [h]
  | some l => by_cases hl : l = "english" <;> simp [h, hl]

theorem instructionParts_eq (c : Config) : instructionParts c = specParts c := by
  unfold instructionParts specParts
  rw [promptPart_eq, personalityPart_eq, capabilitiesPart_eq, stylePart_eq,
    languagePart_eq]

/-! ## Claims -/

/-- C6: instruction synthesis is pure and total, returns the fixed-order
concatenation of exactly the applicable parts (prompt prefixed with the
Core Instructions marker when present and non-empty; the personality
clause of the five-entry table, keyed by the configured value with absent
values reading as friendly; the comma-joined capabilities clause only for
a non-empty list; the response-style clause of the four-entry table with
absent values reading as conversational; the language directive only for
a non-english language), and returns the literal fallback sentence when
no part applies and for the empty configuration. -/
theorem c6_instruction_synthesis (c : Config) :
    buildInstructions c = specSynthesizeInstructions c := by
  unfold buildInstructions specSynthesizeInstructions
  rw [← instructionParts_eq]
  by_cases h1 : configIsEmpty c = true <;> by_cases h2 : instructionParts c = [] <;>
    simp [h1, h2]

/-- C8: the greeting's capabilities clause follows the cardinality rule —
one to three configured capabilities are listed by name joined with
commas, more than three yield the generic various-capabilities clause,
and zero append nothing to the base greeting. -/
theorem c8_greeting_cardinality (c : Config) :
    getPersonalizedGreeting c = specGreeting c := by
  unfold getPersonalizedGreeting specGreeting greetingBase
  cases h : c.capabilities.getD [] with
  | nil => simp [h]
  | cons x xs =>
    by_cases hl : (x :: xs).length ≤ 3 <;>
      simp [h, hl, Nat.succ_le_succ (Nat.zero_le xs.length)]

/-- C10 counterexample: the claim maps an absent language to the
multilingual setting, but the source defaults an absent language to
english and hence selects the en code, which is not multi. -/
theorem c10_counterexample :
    (get_stt_model {}).language = "en" ∧ ("en" : String) ≠ "multi" := by
  exact ⟨rfl, by decide⟩

/-- C10 (amended): STT selection is total and language-driven — it always
returns a nova-3 recognizer, maps the six recognized language names to
their two-letter codes, maps an absent language to english and hence to
the en code, and maps every other language value to the multilingual
setting. -/
theorem c10_stt_selection (c : Config) :
    get_stt_model c = { model := "nova-3", language := specSttLanguage c.language } := by
  cases h : c.language with
  | none => simp [get_stt_model, specSttLanguage, h, languageMap, List.lookup]
  | some l =>
    unfold get_stt_model specSttLanguage
    by_cases h1 : l = "english"
    · simp [h, h1, languageMap, List.lookup]
    · by_cases h2 : l = "spanish"
      · simp [h, h2, languageMap, List.lookup]
      · by_cases h3 : l = "french"
        · simp [h, h3, languageMap, List.lookup]
        · by_cases h4 : l = "german"
          · simp [h, h4, languageMap, List.lookup]
          · by_cases h5 : l = "chinese"
            · simp [h, h5, languageMap, List.lookup]
            · by_cases h6 : l = "japanese"
              · simp [h, h6, languageMap, List.lookup]
              · have e1 : (l == "english") = false := beq_eq_false_iff_ne.mpr h1
                have e2 : (l == "spanish") = false := beq_eq_false_iff_ne.mpr h2
                have e3 : (l == "french") = false := beq_eq_false_iff_ne.mpr h3
                have e4 : (l == "german") = false := beq_eq_false_iff_ne.mpr h4
                have e5 : (l == "chinese") = false := beq_eq_false_iff_ne.mpr h5
                have e6 : (l == "japanese") = false := beq_eq_false_iff_ne.mpr h6
                simp [h, e1, e2, e3, e4, e5, e6, h1, h2, h3, h4, h5, h6,
                  languageMap, List.lookup]

theorem data_infix_joinWith (sep : String) :
    ∀ (l : List String) (a : String), a ∈ l → a.data <:+: (joinWith sep l).data := by
  intro l
  induction l with
  | nil => intro a ha; cases ha
  | cons x xs ih =>
    intro a ha
    cases xs with
    | nil =>
      have hx : a = x := by simpa using ha
      subst hx
      exact ⟨[], [], by simp [joinWith]⟩
    | cons y ys =>
      rcases List.mem_cons.mp ha with hh | hh
      · subst hh
        refine ⟨[], (sep ++ joinWith sep (y :: ys)).data, ?_⟩
        show a.data ++ (sep ++ joinWith sep (y :: ys)).data =
          ((a ++ sep) ++ joinWith sep (y :: ys)).data
        simp [String.data_append, List.append_assoc]
      · obtain ⟨s, t, hst⟩ := ih a hh
        refine ⟨(x ++ sep).data ++ s, t, ?_⟩
        show ((x ++ sep).data ++ s) ++ a.data ++ t =
          ((x ++ sep) ++ joinWith sep (y :: ys)).data
        rw [String.data_append, String.data_append, ← hst]
        simp [List.append_assoc]

theorem greetingBase_data_prefix (c : Config) :
    (greetingBase c).data <+: (getPersonalizedGreeting c).data := by
  unfold getPersonalizedGreeting greetingBase
  cases h : c.capabilities.getD [] with
  | nil => simp [h]
  | cons x xs =>
    by_cases hl : (x :: xs).length ≤ 3 <;> simp only [h, hl, if_pos, if_neg,
      ite_true, ite_false, List.cons_ne_self, ne_eq, reduceCtorEq]
    · refine ⟨(" I can help you with " ++ joinComma (x :: xs) ++ ".").data, ?_⟩
      simp [String.data_append, List.append_assoc]
    · refine ⟨(" I have various capabilities to assist you with different tasks.").data, ?_⟩
      simp [String.data_append, List.append_assoc]

/-- C7 counterexample: for the configuration whose personality is the
unrecognized value bold, the synthesized instruction text does not
contain the friendly personality clause — the source appends a
personality clause only when the configured value is one of the five
table keys, so unrecognized values drop the clause instead of falling
back to friendly. -/
theorem c7_counterexample :
    personalityMap.lookup "bold" = none ∧
      ¬ (friendlyPersonalityClause.data <:+:
          (buildInstructions { personality := some "bold" }).data) := by
  constructor
  · rfl
  · decide

/-- C7 (amended): an absent personality reads as friendly, so for every
non-empty configuration without a personality key the instruction text
contains the friendly personality clause, and the greeting starts with
the friendly greeting template. A present but unrecognized personality
value drops the personality clause from the instructions entirely
(instead of falling back to friendly), while the greeting still falls
back to the friendly template. -/
theorem c7_personality_fallback :
    (∀ c : Config, c.personality = none → configIsEmpty c = false →
       friendlyPersonalityClause.data <:+: (buildInstructions c).data) ∧
    (∀ (c : Config) (p : String), c.personality = some p →
       personalityMap.lookup p = none → personalityPart c = []) ∧
    (∀ c : Config, c.personality = none →
       friendlyGreeting.data <+: (getPersonalizedGreeting c).data) ∧
    (∀ (c : Config) (p : String), c.personality = some p →
       greetingsMap.lookup p = none →
       friendlyGreeting.data <+: (getPersonalizedGreeting c).data) := by
  refine ⟨?_, ?_, ?_, ?_⟩
  · intro c h hne
    have hpp : personalityPart c = [friendlyPersonalityClause] := by
      unfold personalityPart
      rw [h]
      rfl
    have hmem : friendlyPersonalityClause ∈ instructionParts c := by
      unfold instructionParts
      rw [hpp]
      simp
    have hne2 : instructionParts c ≠ [] := List.ne_nil_of_mem hmem
    unfold buildInstructions
    simp only [hne, hne2, Bool.false_eq_true, if_false, ite_false]
    exact data_infix_joinWith " " _ _ hmem
  · intro c p hp hl
    unfold personalityPart
    rw [hp]
    simp [hl]
  · intro c h
    have hb : greetingBase c = friendlyGreeting := by
      unfold greetingBase
      rw [h]
      rfl
    have := greetingBase_data_prefix c
    rwa [hb] at this
  · intro c p hp hl
    have hb : greetingBase c = friendlyGreeting := by
      unfold greetingBase
      rw [hp]
      simp [hl]
    have := greetingBase_data_prefix c
    rwa [hb] at this

/-- Witness for C7 (amended) at concrete configurations. -/
theorem c7_personality_fallback_witness :
    friendlyPersonalityClause.data <:+:
        (buildInstructions { prompt := some "X" }).data ∧
      personalityPart { personality := some "bold" } = [] ∧
      friendlyGreeting.data <+: (getPersonalizedGreeting {}).data ∧
      friendlyGreeting.data <+:
        (getPersonalizedGreeting { personality := some "bold" }).data := by
  refine ⟨?_, ?_, ?_, ?_⟩
  · exact c7_personality_fallback.1 _ rfl rfl
  · exact c7_personality_fallback.2.1 _ "bold" rfl rfl
  · exact c7_personality_fallback.2.2.1 _ rfl
  · exact c7_personality_fallback.2.2.2 _ "bold" rfl rfl

theorem namesProvider_append (pre p : String) : NamesProvider (pre ++ p) p := by
  unfold NamesProvider lowerChars
  refine ⟨pre.data.map Char.toLower, [], ?_⟩
  simp [String.data_append]

/-- C4: provider resolution is a pure function of the capability and the
section (so equal triples yield equal bindings), and for every capability
a section whose provider matches no registered factory fails with an
error message naming the offending provider (up to the source's
capitalization for the not-implemented elevenlabs and anthropic
branches). -/
theorem c4_provider_resolution :
    (∀ (cap : Capability) (s t : ProviderSection), s = t →
       resolveProvider cap s = resolveProvider cap t) ∧
    (∀ (cap : Capability) (sec : ProviderSection) (p m : String) (o : Opts),
       sec.provider = some p → sec.model = some m → sec.opts = some o →
       p ∉ registeredProviders cap →
       FailsNamingProvider (resolveProvider cap sec) p) := by
  constructor
  · intro cap s t h
    rw [h]
  · intro cap sec p m o hp hm ho hreg
    cases cap with
    | stt =>
      have h1 : ¬ p = "deepgram" := fun h => hreg (by rw [h]; simp [registeredProviders])
      have h2 : ¬ p = "openai" := fun h => hreg (by rw [h]; simp [registeredProviders])
      have h3 : ¬ p = "google" := fun h => hreg (by rw [h]; simp [registeredProviders])
      simp only [resolveProvider, createSTT, hp, hm, ho, h1, h2, h3, if_false,
        ite_false]
      exact namesProvider_append "Unsupported STT provider: " p
    | tts =>
      have h1 : ¬ p = "cartesia" := fun h => hreg (by rw [h]; simp [registeredProviders])
      have h2 : ¬ p = "openai" := fun h => hreg (by rw [h]; simp [registeredProviders])
      have h3 : ¬ p = "google" := fun h => hreg (by rw [h]; simp [registeredProviders])
      by_cases h4 : p = "elevenlabs"
      · subst h4
        simp only [resolveProvider, createTTS, hp, hm, ho, h1, h2, h3, if_false,
          ite_false, ite_true, if_pos]
        show NamesProvider "ElevenLabs TTS not implemented yet" "elevenlabs"
        decide
      · simp only [resolveProvider, createTTS, hp, hm, ho, h1, h2, h3, h4, if_false,
          ite_false]
        exact namesProvider_append "Unsupported TTS provider: " p
    | llm =>
      have h1 : ¬ p = "openai" := fun h => hreg (by rw [h]; simp [registeredProviders])
      have h2 : ¬ p = "google" := fun h => hreg (by rw [h]; simp [registeredProviders])
      by_cases h3 : p = "anthropic"
      · subst h3
        simp only [resolveProvider, createLLM, hp, hm, ho, h1, h2, if_false,
          ite_false, ite_true, if_pos]
        show NamesProvider "Anthropic LLM not implemented yet" "anthropic"
        decide
      · simp only [resolveProvider, createLLM, hp, hm, ho, h1, h2, h3, if_false,
          ite_false]
        exact namesProvider_append "Unsupported LLM provider: " p
    | vad =>
      have h1 : ¬ p = "silero" := fun h => hreg (by rw [h]; simp [registeredProviders])
      simp only [resolveProvider, createVAD, hp, ho, h1, if_false, ite_false]
      exact namesProvider_append "Unsupported VAD provider: " p

/-- Witness for C4 at concrete sections: an unknown STT provider and the
not-implemented elevenlabs TTS provider. -/
theorem c4_provider_resolution_witness :
    resolveProvider .stt { provider := some "zzz", model := some "m", opts := some [] } =
        resolveProvider .stt { provider := some "zzz", model := some "m", opts := some [] } ∧
      FailsNamingProvider
        (resolveProvider .tts
          { provider := some "elevenlabs", model := some "m", opts := some [] })
        "elevenlabs" := by
  constructor
  · exact c4_provider_resolution.1 .stt _ _ rfl
  · exact c4_provider_resolution.2 .tts _ "elevenlabs" "m" [] rfl rfl rfl (by decide)

/-- C5 counterexample: in `DynamicVoiceAgent`, resolving a section that
omits the provider and model fields does fail — `section['provider']`
raises a `KeyError` for every capability — so no per-capability default
fallback happens there. -/
theorem c5_counterexample :
    resolveProvider .stt {} = .error "KeyError: provider" ∧
      resolveProvider .tts {} = .error "KeyError: provider" ∧
      resolveProvider .llm {} = .error "KeyError: provider" ∧
      resolveProvider .vad {} = .error "KeyError: provider" :=
  ⟨rfl, rfl, rfl, rfl⟩

/-- C5 (amended): a `DynamicVoiceAgent` section omitting the provider
field fails with a `KeyError` instead of falling back; the fixed default
bindings live in the backend agent's `get_llm_model`, `get_tts_model` and
`get_stt_model` functions, which never read provider or model fields and
always return the gpt-4o-mini chat model, the cartesia synthesizer, and a
nova-3 recognizer respectively. -/
theorem c5_default_bindings :
    (∀ (cap : Capability) (sec : ProviderSection), sec.provider = none →
       resolveProvider cap sec = .error "KeyError: provider") ∧
    (∀ c : Config, get_llm_model c = { model := "gpt-4o-mini" } ∧
       get_tts_model c = CartesiaTTS.mk ∧ (get_stt_model c).model = "nova-3") := by
  constructor
  · intro cap sec h
    cases cap <;> simp [resolveProvider, createSTT, createTTS, createLLM, createVAD, h]
  · intro c
    exact ⟨rfl, rfl, rfl⟩

/-- Witness for C5 (amended) at the empty section and empty config. -/
theorem c5_default_bindings_witness :
    resolveProvider .llm {} = .error "KeyError: provider" ∧
      get_llm_model {} = { model := "gpt-4o-mini" } :=
  ⟨c5_default_bindings.1 .llm {} rfl, (c5_default_bindings.2 {}).1⟩

/-- C1: the behavior loader never lets an untrusted-code failure past its
boundary: `executeGeneratedCode` and `dynamicAssistantInstructions` are
total functions, and for every blob whose execution is skipped (the falsy
empty string), raises (any error, syntax errors included), or defines
neither an `Agent` subclass nor a `get_instructions` function, the loader
yields no custom behavior and the assistant uses the
configuration-derived instructions. -/
theorem c1_behavior_loader_safety (c : Config)
    (evalOf : String → Except String ExecScope) :
    (dynamicAssistantInstructions c (some "") evalOf = buildInstructions c) ∧
    (∀ (code e : String), evalOf code = .error e →
       executeGeneratedCode (evalOf code) = none ∧
       dynamicAssistantInstructions c (some code) evalOf = buildInstructions c) ∧
    (∀ code : String,
       evalOf code = .ok { agentSubclasses := [], getInstructions := none } →
       executeGeneratedCode (evalOf code) = none ∧
       dynamicAssistantInstructions c (some code) evalOf = buildInstructions c) := by
  refine ⟨?_, ?_, ?_⟩
  · simp [dynamicAssistantInstructions]
  · intro code e h
    constructor
    · rw [h]
      rfl
    · by_cases hc : code = ""
      · simp [dynamicAssistantInstructions, hc]
      · simp [dynamicAssistantInstructions, hc, h, executeGeneratedCode]
  · intro code h
    constructor
    · rw [h]
      rfl
    · by_cases hc : code = ""
      · simp [dynamicAssistantInstructions, hc]
      · simp [dynamicAssistantInstructions, hc, h, executeGeneratedCode, loaderBody]

/-- Witness for C1: a syntax-error blob and an empty-scope blob both fall
back to the configuration-derived instructions. -/
theorem c1_behavior_loader_safety_witness :
    dynamicAssistantInstructions {} (some "") constErrEval = buildInstructions {} ∧
      executeGeneratedCode (constErrEval "x") = none ∧
      dynamicAssistantInstructions {} (some "x") constErrEval = buildInstructions {} ∧
      executeGeneratedCode (emptyScopeEval "x") = none := by
  refine ⟨(c1_behavior_loader_safety {} constErrEval).1, ?_, ?_, ?_⟩
  · exact ((c1_behavior_loader_safety {} constErrEval).2.1 "x" _ rfl).1
  · exact ((c1_behavior_loader_safety {} constErrEval).2.1 "x" _ rfl).2
  · exact ((c1_behavior_loader_safety {} emptyScopeEval).2.2 "x" rfl).1

/-- C9: discovery tries the class strategy before the function strategy —
with at least one `Agent` subclass in the evaluated scope, the first one
is instantiated, receiving the config exactly when its constructor
declares the name config, and the result is independent of any
`get_instructions` function also present; only a scope without such a
class consults `get_instructions`. -/
theorem c9_discovery_order :
    (∀ (scope : ExecScope) (cls : AgentClassModel) (rest : List AgentClassModel),
       scope.agentSubclasses = cls :: rest →
       executeGeneratedCode (.ok scope) =
         match (if cls.hasConfigParam then cls.constructWithConfig
                else cls.constructNoArgs) with
         | .ok inst => some inst
         | .error _ => none) ∧
    (∀ scope : ExecScope, scope.agentSubclasses = [] →
       executeGeneratedCode (.ok scope) =
         match scope.getInstructions with
         | some (.ok text) => some { instructions := some text }
         | some (.error _) => none
         | none => none) := by
  constructor
  · intro scope cls rest h
    obtain ⟨subs, gi⟩ := scope
    replace h : subs = cls :: rest := h
    subst h
    unfold executeGeneratedCode loaderBody
    cases hif : (if cls.hasConfigParam then cls.constructWithConfig
        else cls.constructNoArgs) <;> simp [hif]
  · intro scope h
    obtain ⟨subs, gi⟩ := scope
    replace h : subs = [] := h
    subst h
    unfold executeGeneratedCode loaderBody
    cases hg : gi with
    | none => rfl
    | some call => cases call <;> simp [hg]

/-- Witness for C9: a scope defining both strategies yields the
class-based instructions, and an empty-class scope uses the function. -/
theorem c9_discovery_order_witness :
    executeGeneratedCode (.ok bothStrategiesScope) =
        some { instructions := some "Custom X" } ∧
      executeGeneratedCode
          (.ok { agentSubclasses := [], getInstructions := some (.ok "F") }) =
        some { instructions := some "F" } := by
  constructor
  · exact (c9_discovery_order.1 bothStrategiesScope _ [] rfl).trans rfl
  · exact (c9_discovery_order.2
      { agentSubclasses := [], getInstructions := some (.ok "F") } rfl).trans rfl

/-- C2 counterexample: a payload that decodes to a JSON value that is not
an object — here the array of no elements — makes the handler raise an
uncaught `AttributeError` (the `except` clause catches only JSON and
unicode decode errors, and `message.get` does not exist on a list), so
the handler does crash on this malformed event. -/
theorem c2_counterexample :
    onDataReceived (.value (.jarr [])) [] = .error "AttributeError" := rfl

/-- C2 (amended): undecodable bytes and non-JSON text are caught, logged
and leave the gate state unchanged; a decoded JSON object whose type
field is not the agent_setup marker is ignored and leaves the state
unchanged; and no event other than a well-formed setup object ever
changes the gate state — it either leaves the state unchanged or (for a
decoded non-object JSON value) raises an uncaught `AttributeError`. -/
theorem c2_malformed_events :
    (∀ st : GateState, onDataReceived .failUnicode st = .ok st) ∧
    (∀ st : GateState, onDataReceived .failJson st = .ok st) ∧
    (∀ (st : GateState) (fields : List (String × JValue)),
       isSetupType (jdictGet fields "type") = false →
       onDataReceived (.value (.jobj fields)) st = .ok st) ∧
    (∀ (d : Decoded) (st : GateState), isSetupEvent d = false →
       onDataReceived d st = .ok st ∨
         onDataReceived d st = .error "AttributeError") := by
  refine ⟨fun st => rfl, fun st => rfl, ?_, ?_⟩
  · intro st fields h
    simp [onDataReceived, h]
  · intro d st h
    cases d with
    | failUnicode => exact Or.inl rfl
    | failJson => exact Or.inl rfl
    | value v =>
      cases v with
      | jobj fields =>
        replace h : isSetupType (jdictGet fields "type") = false := h
        exact Or.inl (by simp [onDataReceived, h])
      | null => exact Or.inr rfl
      | jbool b => exact Or.inr rfl
      | jnum n => exact Or.inr rfl
      | jstr s => exact Or.inr rfl
      | jarr items => exact Or.inr rfl

/-- Witness for C2 (amended) at concrete events and states. -/
theorem c2_malformed_events_witness :
    onDataReceived .failUnicode [] = .ok [] ∧
      onDataReceived (.value (.jobj [])) [] = .ok [] ∧
      (onDataReceived (.value .null) [] = .ok [] ∨
        onDataReceived (.value .null) [] = .error "AttributeError") :=
  ⟨c2_malformed_events.1 [], c2_malformed_events.2.2.1 [] [] rfl,
    c2_malformed_events.2.2.2 (.value .null) [] rfl⟩

theorem waitLoopAux_timeout :
    ∀ (n t : Nat) (f : Nat → Bool), (∀ i, i < n → f (t + i + 1) = false) →
      waitLoopAux t n f = .timedOut := by
  intro n
  induction n with
  | zero => intro t f _; rfl
  | succ k ih =>
    intro t f h
    have h0 : f (t + 1) = false := by simpa using h 0 (Nat.succ_pos k)
    unfold waitLoopAux
    simp only [h0, Bool.false_eq_true, if_false, ite_false]
    apply ih
    intro i hi
    have e : t + 1 + i + 1 = t + (i + 1) + 1 := by omega
    rw [e]
    exact h (i + 1) (by omega)

theorem waitLoopAux_arrives :
    ∀ (n t i : Nat) (f : Nat → Bool), i < n → f (t + i + 1) = true →
      (∀ j, j < i → f (t + j + 1) = false) →
      waitLoopAux t n f = .arrived (t + i + 1) := by
  intro n
  induction n with
  | zero => intro t i f hi _ _; exact absurd hi (Nat.not_lt_zero i)
  | succ k ih =>
    intro t i f hi hf hprev
    unfold waitLoopAux
    cases i with
    | zero =>
      simp only [Nat.add_zero] at hf
      simp [hf]
    | succ m =>
      have h0 : f (t + 1) = false := by simpa using hprev 0 (Nat.succ_pos m)
      simp only [h0, Bool.false_eq_true, if_false, ite_false]
      rw [show t + (m + 1) + 1 = t + 1 + m + 1 from by omega]
      apply ih (t + 1) m f (by omega)
      · rw [show t + 1 + m + 1 = t + (m + 1) + 1 from by omega]
        exact hf
      · intro j hj
        rw [show t + 1 + j + 1 = t + (j + 1) + 1 from by omega]
        exact hprev (j + 1) (by omega)

/-- C3: the configuration wait is a total function (the loop always
terminates with a single decision): it resolves TimedOut when the shared
config dict is still empty at each of the fifteen one-second polls, and
resolves Arrived at the earliest poll that finds a non-empty
configuration, whichever happens first. -/
theorem c3_config_wait :
    (∀ f : Nat → Bool, (∀ i, i < 15 → f (i + 1) = false) →
       waitForConfig f = .timedOut) ∧
    (∀ (f : Nat → Bool) (i : Nat), i < 15 → f (i + 1) = true →
       (∀ j, j < i → f (j + 1) = false) → waitForConfig f = .arrived (i + 1)) := by
  constructor
  · intro f h
    apply waitLoopAux_timeout
    intro i hi
    simpa using h i hi
  · intro f i hi hf hprev
    have := waitLoopAux_arrives 15 0 i f hi (by simpa using hf)
      (by intro j hj; simpa using hprev j hj)
    simpa using this

/-- Witness for C3: a configuration that never arrives times out, and one
first visible at the second poll resolves Arrived at second two. -/
theorem c3_config_wait_witness :
    waitForConfig (fun _ => false) = .timedOut ∧
      waitForConfig (fun t => decide (2 ≤ t)) = .arrived 2 := by
  constructor
  · exact c3_config_wait.1 (fun _ => false) (fun i _ => rfl)
  · exact c3_config_wait.2 (fun t => decide (2 ≤ t)) 1 (by omega) (by decide)
      (fun j hj => by
        have h0 : j = 0 := Nat.lt_one_iff.mp hj
        subst h0
        decide)

end VoiceBun
